import Mathlib

/-!
Shallow embedding of `src/morning_snapshot.py` (morning-market-bot).

The script fetches quotes for five fixed tickers from an external quote
service, formats a report, and posts it to a chat API.  The external
world (the quote service and the HTTP endpoint) is modelled as explicit
environment data passed to the embedded functions:

* `TickerData` records, for one ticker, the outcome of the intraday
  history call (`t.history(period="1d", interval="1m")`) and of the
  snapshot-info access (`t.info`).  `Except.error ()` models a raised
  exception; prices are rationals (the script only compares and copies
  them, so exact arithmetic is faithful here).
* `send_telegram` is modelled against a `TelegramEnv` holding the two
  credentials (as `os.getenv` results, `none` = unset) and the response
  the single HTTP POST would produce; the returned trace of `PostCall`s
  records every POST the function issues.
-/

/-- The snapshot dictionary `t.info`, restricted to the two fields the
script reads (`regularMarketPrice` and `previousClose`). A missing key
is `none`. -/
structure InfoDict where
  regularMarketPrice : Option ℚ
  previousClose : Option ℚ

/-- The external quote-service behaviour for one ticker.
`history = .error ()` models `t.history` raising; `.ok none` models it
returning `None`; `.ok (some closes)` models a dataframe whose `Close`
column holds `closes` (empty list = empty dataframe).
`info = .error ()` models the `t.info` access raising. -/
structure TickerData where
  history : Except Unit (Option (List ℚ))
  info : Except Unit InfoDict

/-- A quote-service environment: what each ticker string returns. -/
def QuoteEnv : Type := String → TickerData

/-- The snapshot fallback inside `safe_fetch`:
`val = info.get('regularMarketPrice') or info.get('previousClose')`
followed by `float(val) if val is not None else None`.  Python's `or`
takes the second operand whenever the first is falsy (missing or `0.0`),
so a zero `regularMarketPrice` falls through to `previousClose`; a zero
`previousClose` is still returned, since only `val is not None` is
checked afterwards.  An exception while reading `info` is caught by the
surrounding `try` and yields `none`. -/
def infoPrice (t : TickerData) : Option ℚ :=
  match t.info with
  | .error _ => none
  | .ok i =>
    match i.regularMarketPrice with
    | some x => if x = 0 then i.previousClose else some x
    | none => i.previousClose

/-- `safe_fetch(ticker)` (src/morning_snapshot.py lines 23-36): try the
intraday history first; if the dataframe is present and non-empty return
its last `Close`; otherwise fall back to the snapshot info; any
exception yields `None`. -/
def safe_fetch (env : QuoteEnv) (ticker : String) : Option ℚ :=
  match (env ticker).history with
  | .error _ => none
  | .ok none => infoPrice (env ticker)
  | .ok (some closes) =>
    if closes.isEmpty then infoPrice (env ticker) else closes.getLast?

/-- The fixed ticker table `TICKERS` (lines 15-21), in Python dict
insertion order. -/
def TICKERS : List (String × String) :=
  [("US 10Y (approx)", "^TNX"),
   ("Brent (USD/bbl)", "BZ=F"),
   ("DXY (Dollar Index)", "DX-Y.NYB"),
   ("USD/INR", "USDINR=X"),
   ("S&P 500", "^GSPC")]

/-- One loop iteration of `make_message` for a ticker (lines 45-52):
`safe_fetch`, then the hardcoded `^DXY` retry when the `DX-Y.NYB` fetch
failed, then the `USDINR=X` branch, which re-assigns `val = None` when
`val` is already `None` and so is deliberately inert.  The two guards
test distinct ticker strings, so the Python straight-line re-assignments
flatten to this if-chain.  The second component records, in order, every
ticker string handed to `safe_fetch` for this symbol. -/
def fetchSymbol (env : QuoteEnv) (ticker : String) : Option ℚ × List String :=
  if safe_fetch env ticker = none ∧ ticker = "DX-Y.NYB" then
    (safe_fetch env "^DXY", [ticker, "^DXY"])
  else if safe_fetch env ticker = none ∧ ticker = "USDINR=X" then
    (none, [ticker])
  else (safe_fetch env ticker, [ticker])

/-- Rendering of the per-symbol value in a report line:
`{val if val is not None else 'N/A'}`. -/
def fmtVal : Option ℚ → String
  | some v => toString v
  | none => "N/A"

/-- A per-symbol report line (line 53):
`f"{name}: {val ...}  (ticker: {ticker})"`. -/
def symbolLine (name ticker : String) (val : Option ℚ) : String :=
  name ++ ": " ++ fmtVal val ++ "  (ticker: " ++ ticker ++ ")"

/-- The `results` dict after the loop, in insertion order. -/
def resultsOf (env : QuoteEnv) : List (String × Option ℚ) :=
  TICKERS.map fun p => (p.1, (fetchSymbol env p.2).1)

/-- `results.get(name)`: `none` when the key is missing, otherwise the
stored optional value. -/
def dictGet (d : List (String × Option ℚ)) (k : String) : Option ℚ :=
  match d.find? (fun p => p.1 == k) with
  | some p => p.2
  | none => none

/-- The `quick` list built by the threshold heuristics (lines 56-71):
US10Y above 4.6 → risk-off note, below 4.2 → risk-on note; DXY above
105 → INR-pressure note; Brent above 95 → inflation note.  (The
`try/except pass` around the US10Y comparison cannot fire on numeric
data and is not modelled.) -/
def quickFor (env : QuoteEnv) : List String :=
  let results := resultsOf env
  let us10 := dictGet results "US 10Y (approx)"
  let q1 : List String :=
    match us10 with
    | some v =>
      if v > 4.6 then ["US10Y high → risk-off"]
      else if v < 4.2 then ["US10Y low → risk-on possible"]
      else []
    | none => []
  let dxyv := dictGet results "DXY (Dollar Index)"
  let q2 : List String :=
    match dxyv with
    | some v => if v > 105 then ["DXY strong → INR pressure possible"] else []
    | none => []
  let brentv := dictGet results "Brent (USD/bbl)"
  let q3 : List String :=
    match brentv with
    | some v => if v > 95 then ["Brent high → inflation pressure"] else []
    | none => []
  q1 ++ q2 ++ q3

/-- Line 74: `"⚡ Quick read: " + (" | ".join(quick) if quick else
"No major global red flags detected")`. -/
def quickLine (env : QuoteEnv) : String :=
  "⚡ Quick read: " ++
    (if (quickFor env).isEmpty then "No major global red flags detected"
     else String.intercalate " | " (quickFor env))

/-- The full list `lines` built by `make_message` (lines 38-74), with
the IST timestamp string passed in as `ts`. -/
def messageLines (env : QuoteEnv) (ts : String) : List String :=
  ["📊 Morning Market Snapshot — " ++ ts, ""]
    ++ TICKERS.map (fun p => symbolLine p.1 p.2 (fetchSymbol env p.2).1)
    ++ ["", quickLine env]

/-- `make_message()` returns `"\n".join(lines)`. -/
def make_message (env : QuoteEnv) (ts : String) : String :=
  String.intercalate "\n" (messageLines env ts)

/-- One HTTP POST as issued by `send_telegram` (line 85):
`requests.post(url, data=payload, timeout=15)` with
`payload = {"chat_id": CHAT_ID, "text": text, "parse_mode": "HTML"}`. -/
structure PostCall where
  url : String
  chatId : String
  text : String
  parseMode : String
  timeout : ℕ

/-- The environment of `send_telegram`: the two `os.getenv` results
(`none` = variable unset) and the behaviour of the HTTP endpoint for
the single POST the function can issue (`.ok n` = a response with
status code `n`, `.error ()` = `requests.post` raising). -/
structure TelegramEnv where
  botToken : Option String
  chatId : Option String
  response : Except Unit ℕ

/-- Python truthiness test `not s` on an optional string: true when the
value is `None` or the empty string. -/
def pyFalsyStr : Option String → Bool
  | none => true
  | some s => s.isEmpty

/-- `send_telegram(text)` (lines 78-90).  Returns the boolean result
together with the trace of POSTs issued: `[]` when the credential check
fails, otherwise exactly the one `requests.post` call, whose outcome is
`env.response`.  `r.status_code == 200` decides success; an exception
yields `False`. -/
def send_telegram (env : TelegramEnv) (text : String) : Bool × List PostCall :=
  if pyFalsyStr env.botToken || pyFalsyStr env.chatId then (false, [])
  else
    let tok := env.botToken.getD ""
    let cid := env.chatId.getD ""
    let call : PostCall :=
      ⟨"https://api.telegram.org/bot" ++ tok ++ "/sendMessage", cid, text, "HTML", 15⟩
    match env.response with
    | .ok status => (status == 200, [call])
    | .error _ => (false, [call])

/-! ### Concrete environments used as test inputs -/

/-- A ticker whose intraday history succeeds with the single close `v`. -/
def okTicker (v : ℚ) : TickerData := ⟨.ok (some [v]), .ok ⟨none, none⟩⟩

/-- A ticker for which both the history call and the info access raise. -/
def failTicker : TickerData := ⟨.error (), .error ()⟩

/-- A fixed timestamp string standing in for the IST clock reading. -/
def ts0 : String := "2026-10-12 08:00 IST"

/-- Every ticker succeeds; `^GSPC` (and everything else) closes at 100. -/
def envAllOk : QuoteEnv := fun _ => okTicker 100

/-- Every fetch fails with an exception. -/
def envAllFail : QuoteEnv := fun _ => failTicker

/-- US10Y at 4.7, DXY at 106, Brent at 90, everything else at 100. -/
def env5 : QuoteEnv := fun t =>
  if t = "^TNX" then okTicker 4.7
  else if t = "DX-Y.NYB" then okTicker 106
  else if t = "BZ=F" then okTicker 90
  else okTicker 100

/-! ### Claims -/

/-- C6: whenever either credential is absent, `send_telegram` returns
failure immediately and issues no HTTP POST. -/
theorem C6_missing_credentials_no_post (env : TelegramEnv) (text : String)
    (h : env.botToken = none ∨ env.chatId = none) :
    send_telegram env text = (false, []) := by
  rcases h with h | h <;> simp [send_telegram, pyFalsyStr, h]

/-- Witness for C6 at a concrete environment with both credentials
unset. -/
theorem C6_missing_credentials_no_post_witness :
    send_telegram ⟨none, none, .ok 200⟩ "hello" = (false, []) :=
  C6_missing_credentials_no_post ⟨none, none, .ok 200⟩ "hello" (Or.inl rfl)

/-- A Telegram environment with valid credentials whose endpoint answers
with status 204 (a 200-class response that is not exactly 200). -/
def envTel204 : TelegramEnv := ⟨some "tok", some "chat", .ok 204⟩

/-- Counterexample to C7 as stated: with both credentials present the
endpoint returns 204, a 200-class status, yet `send_telegram` reports
failure (the code tests `r.status_code == 200`, not 2xx).  Exactly one
POST is still issued. -/
theorem C7_counterexample :
    (send_telegram envTel204 "msg").1 = false ∧
    200 ≤ 204 ∧ 204 < 300 ∧
    envTel204.response = Except.ok 204 ∧
    (send_telegram envTel204 "msg").2.length = 1 :=
  ⟨rfl, by norm_num, by norm_num, rfl, rfl⟩

/-- C7 (amended): when both credentials are present and non-empty,
`send_telegram` issues exactly one POST, to the bot URL with the HTML
payload and a 15-second timeout, and succeeds if and only if the
response status is exactly 200; any exception or other status (2xx
included) yields failure, with no second POST. -/
theorem C7_single_post_status_200 (env : TelegramEnv) (text tok cid : String)
    (htok : env.botToken = some tok) (htokne : tok ≠ "")
    (hcid : env.chatId = some cid) (hcidne : cid ≠ "") :
    (send_telegram env text).2 =
      [⟨"https://api.telegram.org/bot" ++ tok ++ "/sendMessage", cid, text, "HTML", 15⟩] ∧
    ((send_telegram env text).1 = true ↔ env.response = Except.ok 200) := by
  have h1 : tok.isEmpty = false := by
    rw [Bool.eq_false_iff]
    exact fun h => htokne ((String.isEmpty_iff tok).mp h)
  have h2 : cid.isEmpty = false := by
    rw [Bool.eq_false_iff]
    exact fun h => hcidne ((String.isEmpty_iff cid).mp h)
  cases henv : env.response with
  | ok status =>
    constructor
    · simp [send_telegram, pyFalsyStr, htok, hcid, h1, h2, henv]
    · simp [send_telegram, pyFalsyStr, htok, hcid, h1, h2, henv]
  | error e =>
    constructor
    · simp [send_telegram, pyFalsyStr, htok, hcid, h1, h2, henv]
    · simp [send_telegram, pyFalsyStr, htok, hcid, h1, h2, henv]

/-- Witness for C7 (amended) at a concrete environment whose endpoint
answers 200. -/
theorem C7_single_post_status_200_witness :
    (send_telegram ⟨some "t", some "c", .ok 200⟩ "hi").2 =
      [⟨"https://api.telegram.org/bot" ++ "t" ++ "/sendMessage", "c", "hi", "HTML", 15⟩] ∧
    ((send_telegram ⟨some "t", some "c", .ok 200⟩ "hi").1 = true ↔
      (⟨some "t", some "c", .ok 200⟩ : TelegramEnv).response = Except.ok 200) :=
  C7_single_post_status_200 ⟨some "t", some "c", .ok 200⟩ "hi" "t" "c"
    rfl (by decide) rfl (by decide)

/-- C8: only the `DX-Y.NYB` entry has an alternate-ticker fallback: when
its first fetch fails, `^DXY` is fetched once more; every other symbol
triggers exactly one fetch, whatever the outcomes.  `DX-Y.NYB` occurs
exactly once among the five table entries. -/
theorem C8_single_alternate_fallback (env : QuoteEnv) :
    (fetchSymbol env "^TNX").2 = ["^TNX"] ∧
    (fetchSymbol env "BZ=F").2 = ["BZ=F"] ∧
    (fetchSymbol env "USDINR=X").2 = ["USDINR=X"] ∧
    (fetchSymbol env "^GSPC").2 = ["^GSPC"] ∧
    (fetchSymbol env "DX-Y.NYB").2 =
      (if safe_fetch env "DX-Y.NYB" = none then ["DX-Y.NYB", "^DXY"]
       else ["DX-Y.NYB"]) ∧
    (TICKERS.filter (fun p => p.2 == "DX-Y.NYB")).length = 1 ∧
    TICKERS.length = 5 := by
  refine ⟨by simp [fetchSymbol], by simp [fetchSymbol], ?_, by simp [fetchSymbol],
    ?_, by decide, by decide⟩
  · by_cases h : safe_fetch env "USDINR=X" = none <;> simp [fetchSymbol, h]
  · by_cases h : safe_fetch env "DX-Y.NYB" = none <;> simp [fetchSymbol, h]

/-- C1: when the intraday history for a listed ticker succeeds and is
non-empty, `safe_fetch` returns its last close, the per-symbol loop
keeps that value, and the corresponding line of the report shows it. -/
theorem C1_intraday_close_reported (env : QuoteEnv) (ts name ticker : String)
    (closes : List ℚ) (v : ℚ)
    (hmem : (name, ticker) ∈ TICKERS)
    (hhist : (env ticker).history = Except.ok (some closes))
    (hlast : closes.getLast? = some v) :
    safe_fetch env ticker = some v ∧
    (fetchSymbol env ticker).1 = some v ∧
    symbolLine name ticker (some v) ∈ messageLines env ts := by
  have hsf : safe_fetch env ticker = some v := by
    unfold safe_fetch
    rw [hhist]
    cases closes with
    | nil => simp at hlast
    | cons a as => simpa using hlast
  have hfs : (fetchSymbol env ticker).1 = some v := by
    simp [fetchSymbol, hsf]
  refine ⟨hsf, hfs, ?_⟩
  have hline : symbolLine name ticker (some v) =
      (fun p : String × String => symbolLine p.1 p.2 (fetchSymbol env p.2).1)
        (name, ticker) := by
    simp [hfs]
  rw [hline]
  unfold messageLines
  exact List.mem_append.mpr (Or.inl (List.mem_append.mpr
    (Or.inr (List.mem_map_of_mem _ hmem))))

/-- Witness for C1: in `envAllOk` the S&P 500 line reports the last
(only) intraday close, 100. -/
theorem C1_intraday_close_reported_witness :
    safe_fetch envAllOk "^GSPC" = some 100 ∧
    (fetchSymbol envAllOk "^GSPC").1 = some 100 ∧
    symbolLine "S&P 500" "^GSPC" (some 100) ∈ messageLines envAllOk ts0 :=
  C1_intraday_close_reported envAllOk ts0 "S&P 500" "^GSPC" [100] 100
    (by decide) rfl rfl

/-- C9: with the intraday history empty and `regularMarketPrice` present
but zero, Python's `or` discards it and `safe_fetch` returns whatever
`previousClose` holds. -/
theorem C9_zero_market_price_falls_back (env : QuoteEnv) (ticker : String)
    (i : InfoDict)
    (hh : (env ticker).history = Except.ok (some []))
    (hi : (env ticker).info = Except.ok i)
    (hr : i.regularMarketPrice = some 0) :
    safe_fetch env ticker = i.previousClose := by
  unfold safe_fetch
  rw [hh]
  simp [infoPrice, hi, hr]

/-- A quote service with empty intraday data, `regularMarketPrice = 0`
and `previousClose = 5`. -/
def env9 : QuoteEnv := fun _ => ⟨.ok (some []), .ok ⟨some 0, some 5⟩⟩

/-- Witness for C9: `safe_fetch` returns the previous close 5 although
`regularMarketPrice` exists (as 0). -/
theorem C9_zero_market_price_falls_back_witness :
    safe_fetch env9 "^GSPC" = some 5 :=
  C9_zero_market_price_falls_back env9 "^GSPC" ⟨some 0, some 5⟩ rfl rfl rfl

/-- A quote service with empty intraday data, `regularMarketPrice = 0`
and no `previousClose`. -/
def env2c : QuoteEnv := fun _ => ⟨.ok (some []), .ok ⟨some 0, none⟩⟩

/-- Counterexample to C2 as stated: the intraday series is empty and the
snapshot info provides a current price (`regularMarketPrice = 0`), yet
`safe_fetch` returns `none` instead of that snapshot value, because the
Python `or` treats the falsy 0 as missing. -/
theorem C2_counterexample :
    (env2c "^GSPC").history = Except.ok (some []) ∧
    (env2c "^GSPC").info = Except.ok ⟨some 0, none⟩ ∧
    safe_fetch env2c "^GSPC" = none := by
  refine ⟨rfl, rfl, ?_⟩
  simp [safe_fetch, env2c, infoPrice]

/-- C2 (amended): when the intraday series is empty or missing and the
snapshot info is readable, `safe_fetch` returns `regularMarketPrice`
when it is present and non-zero, and otherwise returns `previousClose`
(possibly `none`); a zero `regularMarketPrice` is skipped. -/
theorem C2_snapshot_fallback (env : QuoteEnv) (ticker : String) (i : InfoDict)
    (hh : (env ticker).history = Except.ok (some []) ∨
          (env ticker).history = Except.ok none)
    (hi : (env ticker).info = Except.ok i) :
    (∀ x : ℚ, i.regularMarketPrice = some x → x ≠ 0 →
        safe_fetch env ticker = some x) ∧
    (i.regularMarketPrice = some 0 ∨ i.regularMarketPrice = none →
        safe_fetch env ticker = i.previousClose) := by
  have hip : safe_fetch env ticker = infoPrice (env ticker) := by
    unfold safe_fetch
    rcases hh with hh | hh <;> simp [hh]
  constructor
  · intro x hx hxne
    rw [hip]
    simp [infoPrice, hi, hx, hxne]
  · intro hx
    rw [hip]
    rcases hx with hx | hx <;> simp [infoPrice, hi, hx]

/-- A quote service whose history call returns `None` and whose snapshot
has `regularMarketPrice = 7`, `previousClose = 3`. -/
def env2w : QuoteEnv := fun _ => ⟨.ok none, .ok ⟨some 7, some 3⟩⟩

/-- Witness for C2 (amended): the non-zero `regularMarketPrice` 7 is
returned. -/
theorem C2_snapshot_fallback_witness :
    safe_fetch env2w "^GSPC" = some 7 :=
  (C2_snapshot_fallback env2w "^GSPC" ⟨some 7, some 3⟩ (Or.inr rfl) rfl).1 7 rfl
    (by norm_num)

/-- C5: with yield 4.7, dollar index 106 and Brent 90, the commentary
list holds exactly the risk-off and INR-pressure phrases, in that order,
the inflation phrase is absent, and the quick-read line joins the two
phrases. -/
theorem C5_threshold_commentary :
    quickFor env5 =
      ["US10Y high → risk-off", "DXY strong → INR pressure possible"] ∧
    "Brent high → inflation pressure" ∉ quickFor env5 ∧
    quickLine env5 =
      "⚡ Quick read: US10Y high → risk-off | DXY strong → INR pressure possible" := by
  have hq : quickFor env5 =
      ["US10Y high → risk-off", "DXY strong → INR pressure possible"] := by
    simp [quickFor, resultsOf, dictGet, fetchSymbol, safe_fetch, env5,
      okTicker, TICKERS]
    norm_num
  refine ⟨hq, by rw [hq]; decide, ?_⟩
  simp only [quickLine, hq]
  decide

/-- US10Y at 4 (below both 4.6 and 4.2), DXY at 100, Brent at 90,
everything else at 100: every metric is below its flag threshold. -/
def env4 : QuoteEnv := fun t =>
  if t = "^TNX" then okTicker 4
  else if t = "DX-Y.NYB" then okTicker 100
  else if t = "BZ=F" then okTicker 90
  else okTicker 100

/-- Counterexample to C4 as stated: all three metrics are present and
below their thresholds (4 < 4.6, 100 < 105, 90 < 95), yet the
commentary is the risk-on advisory, not the default no-flags phrase,
because the code has a second branch firing when the yield is under
4.2. -/
theorem C4_counterexample :
    (fetchSymbol env4 "^TNX").1 = some 4 ∧ (4 : ℚ) < 4.6 ∧
    (fetchSymbol env4 "DX-Y.NYB").1 = some 100 ∧ (100 : ℚ) < 105 ∧
    (fetchSymbol env4 "BZ=F").1 = some 90 ∧ (90 : ℚ) < 95 ∧
    quickFor env4 = ["US10Y low → risk-on possible"] ∧
    quickLine env4 ≠ "⚡ Quick read: No major global red flags detected" := by
  have hq : quickFor env4 = ["US10Y low → risk-on possible"] := by
    simp [quickFor, resultsOf, dictGet, fetchSymbol, safe_fetch, env4,
      okTicker, TICKERS]
    norm_num
  refine ⟨by simp [fetchSymbol, safe_fetch, env4, okTicker], by norm_num,
    by simp [fetchSymbol, safe_fetch, env4, okTicker], by norm_num,
    by simp [fetchSymbol, safe_fetch, env4, okTicker], by norm_num,
    hq, ?_⟩
  simp only [quickLine, hq]
  decide

/-- C4 (amended): when all three metrics are present, the yield lies in
the no-advisory band [4.2, 4.6] (merely being below 4.6 is not enough:
below 4.2 a risk-on advisory fires), the dollar index is at most 105 and
Brent at most 95, the advisory list is empty and the commentary is
exactly the default no-flags phrase. -/
theorem C4_no_flags (env : QuoteEnv) (u d b : ℚ)
    (hu : (fetchSymbol env "^TNX").1 = some u)
    (hd : (fetchSymbol env "DX-Y.NYB").1 = some d)
    (hb : (fetchSymbol env "BZ=F").1 = some b)
    (hu1 : u ≤ 4.6) (hu2 : 4.2 ≤ u) (hd1 : d ≤ 105) (hb1 : b ≤ 95) :
    quickFor env = [] ∧
    quickLine env = "⚡ Quick read: No major global red flags detected" := by
  have e1 : dictGet (resultsOf env) "US 10Y (approx)" =
      (fetchSymbol env "^TNX").1 := by
    simp [dictGet, resultsOf, TICKERS]
  have e2 : dictGet (resultsOf env) "DXY (Dollar Index)" =
      (fetchSymbol env "DX-Y.NYB").1 := by
    simp [dictGet, resultsOf, TICKERS]
  have e3 : dictGet (resultsOf env) "Brent (USD/bbl)" =
      (fetchSymbol env "BZ=F").1 := by
    simp [dictGet, resultsOf, TICKERS]
  have n1 : ¬ ((4.6 : ℚ) < u) := not_lt.mpr hu1
  have n2 : ¬ (u < (4.2 : ℚ)) := not_lt.mpr hu2
  have n3 : ¬ ((105 : ℚ) < d) := not_lt.mpr hd1
  have n4 : ¬ ((95 : ℚ) < b) := not_lt.mpr hb1
  have hq : quickFor env = [] := by
    simp [quickFor, e1, e2, e3, hu, hd, hb, gt_iff_lt, n1, n2, n3, n4]
  refine ⟨hq, ?_⟩
  simp only [quickLine, hq]
  decide

/-- US10Y at 4.4, everything else at 90: all metrics in the quiet band. -/
def env4w : QuoteEnv := fun t =>
  if t = "^TNX" then okTicker 4.4 else okTicker 90

/-- Witness for C4 (amended) at `env4w`. -/
theorem C4_no_flags_witness :
    quickFor env4w = [] ∧
    quickLine env4w = "⚡ Quick read: No major global red flags detected" :=
  C4_no_flags env4w 4.4 90 90
    (by simp [fetchSymbol, safe_fetch, env4w, okTicker])
    (by simp [fetchSymbol, safe_fetch, env4w, okTicker])
    (by simp [fetchSymbol, safe_fetch, env4w, okTicker])
    (by norm_num) (by norm_num) (by norm_num) (by norm_num)

/-- A quote service where only `^DXY` works (closing at 100); every
other ticker, `DX-Y.NYB` included, raises on both sources. -/
def env3 : QuoteEnv := fun t =>
  if t = "^DXY" then okTicker 100 else failTicker

/-- Counterexample to C3 as stated: for the dollar-index symbol both the
intraday lookup and the snapshot fallback raise, so `safe_fetch`
returns `none` — but the report line does not contain "N/A", because the
loop retries the alternate ticker `^DXY`, which succeeds with 100. -/
theorem C3_counterexample :
    (env3 "DX-Y.NYB").history = Except.error () ∧
    (env3 "DX-Y.NYB").info = Except.error () ∧
    safe_fetch env3 "DX-Y.NYB" = none ∧
    (fetchSymbol env3 "DX-Y.NYB").1 = some 100 ∧
    symbolLine "DXY (Dollar Index)" "DX-Y.NYB" (some 100) ∈
      messageLines env3 ts0 ∧
    ¬ ("N/A".data <:+:
        (symbolLine "DXY (Dollar Index)" "DX-Y.NYB" (some 100)).data) := by
  have h1 : safe_fetch env3 "DX-Y.NYB" = none := by
    simp [safe_fetch, env3, failTicker]
  have h2 : (fetchSymbol env3 "DX-Y.NYB").1 = some 100 := by
    simp [fetchSymbol, safe_fetch, env3, okTicker, failTicker]
  refine ⟨rfl, rfl, h1, h2, ?_, by decide⟩
  have hline : symbolLine "DXY (Dollar Index)" "DX-Y.NYB" (some 100) =
      (fun p : String × String => symbolLine p.1 p.2 (fetchSymbol env3 p.2).1)
        ("DXY (Dollar Index)", "DX-Y.NYB") := by
    simp [h2]
  rw [hline]
  unfold messageLines
  exact List.mem_append.mpr (Or.inl (List.mem_append.mpr
    (Or.inr (List.mem_map_of_mem _ (by decide)))))

/-- C3 (amended): for a listed symbol all of whose fetch attempts fail —
for the dollar-index entry this includes the alternate ticker `^DXY` —
the loop keeps `none` (no error propagates, `safe_fetch` being total),
and the symbol's report line, which is in the report, contains "N/A". -/
theorem C3_all_fail_line_na (env : QuoteEnv) (ts name ticker : String)
    (hmem : (name, ticker) ∈ TICKERS)
    (hfail : safe_fetch env ticker = none)
    (halt : ticker = "DX-Y.NYB" → safe_fetch env "^DXY" = none) :
    (fetchSymbol env ticker).1 = none ∧
    symbolLine name ticker none ∈ messageLines env ts ∧
    "N/A".data <:+: (symbolLine name ticker none).data := by
  have hfs : (fetchSymbol env ticker).1 = none := by
    by_cases h : ticker = "DX-Y.NYB"
    · have ha := halt h
      subst h
      simp [fetchSymbol, hfail, ha]
    · by_cases h2 : ticker = "USDINR=X"
      · subst h2
        simp [fetchSymbol, hfail]
      · simp [fetchSymbol, hfail, h, h2]
  refine ⟨hfs, ?_, ?_⟩
  · have hline : symbolLine name ticker none =
        (fun p : String × String => symbolLine p.1 p.2 (fetchSymbol env p.2).1)
          (name, ticker) := by
      simp [hfs]
    rw [hline]
    unfold messageLines
    exact List.mem_append.mpr (Or.inl (List.mem_append.mpr
      (Or.inr (List.mem_map_of_mem _ hmem))))
  · refine ⟨name.data ++ ": ".data,
      "  (ticker: ".data ++ ticker.data ++ ")".data, ?_⟩
    simp [symbolLine, fmtVal]

/-- Witness for C3 (amended): with every fetch failing, the S&P 500 line
is the N/A line and sits in the report. -/
theorem C3_all_fail_line_na_witness :
    (fetchSymbol envAllFail "^GSPC").1 = none ∧
    symbolLine "S&P 500" "^GSPC" none ∈ messageLines envAllFail ts0 ∧
    "N/A".data <:+: (symbolLine "S&P 500" "^GSPC" none).data :=
  C3_all_fail_line_na envAllFail ts0 "S&P 500" "^GSPC" (by decide) rfl
    (fun h => absurd h (by decide))

/-- C10: whatever the fetch outcomes, the report always has the fixed
shape: the header with the timestamp, a blank line, the five symbol
lines in dictionary order, a blank line, and the quick-read line; and
every symbol line ends with its ticker in parentheses. -/
theorem C10_report_shape (env : QuoteEnv) (ts : String) :
    ∃ q : String,
      messageLines env ts =
        ["📊 Morning Market Snapshot — " ++ ts, "",
         symbolLine "US 10Y (approx)" "^TNX" ((fetchSymbol env "^TNX").1),
         symbolLine "Brent (USD/bbl)" "BZ=F" ((fetchSymbol env "BZ=F").1),
         symbolLine "DXY (Dollar Index)" "DX-Y.NYB"
           ((fetchSymbol env "DX-Y.NYB").1),
         symbolLine "USD/INR" "USDINR=X" ((fetchSymbol env "USDINR=X").1),
         symbolLine "S&P 500" "^GSPC" ((fetchSymbol env "^GSPC").1),
         "", "⚡ Quick read: " ++ q] ∧
      (messageLines env ts).length = 9 ∧
      (∀ name ticker val, ∃ front,
        symbolLine name ticker val = front ++ ("(ticker: " ++ ticker ++ ")")) := by
  refine ⟨if (quickFor env).isEmpty then "No major global red flags detected"
          else String.intercalate " | " (quickFor env), ?_, ?_, ?_⟩
  · simp [messageLines, TICKERS, quickLine]
  · simp [messageLines, TICKERS]
  · intro name ticker val
    refine ⟨name ++ ": " ++ fmtVal val ++ "  ", ?_⟩
    have hlit : ("  (ticker: " : String) = "  " ++ "(ticker: " := by decide
    have hsub : ("  (ticker: " : String) ++ (ticker ++ ")") =
        "  " ++ ("(ticker: " ++ (ticker ++ ")")) :=
      (congrArg (· ++ (ticker ++ ")")) hlit).trans
        (String.append_assoc "  " "(ticker: " (ticker ++ ")"))
    simp only [symbolLine, String.append_assoc]
    rw [hsub]
